import Mathlib

/-!
Shallow embedding of the GTMForge frontend generation-session controller:
the page-level view state machine (`archive/web/app/page.tsx`), the
progress view's WebSocket message handler (`ProgressView` component) and
the idea-form submit flow (`archive/web/components/IdeaForm.tsx`).

JavaScript `number` fields carrying progress percentages are modelled as
`Int` (all observed values are integral, so `Math.round` is the identity);
JavaScript `x || d` fallback on possibly-missing fields is modelled by
`strOr` / `numOr` over `Option`, reproducing the falsiness of `""` and `0`.
Timestamps produced by `new Date().toLocaleTimeString()` are passed in as
an explicit `String` parameter of each event.
-/

namespace GTMForge

/-- JS `s || d` for a possibly-undefined string field: `undefined` and the
empty string are falsy. -/
def strOr (s : Option String) (d : String) : String :=
  match s with
  | none => d
  | some v => if v = "" then d else v

/-- JS `n || d` for a possibly-undefined numeric field: `undefined` and `0`
are falsy. -/
def numOr (n : Option Int) (d : Int) : Int :=
  match n with
  | none => d
  | some v => if v = 0 then d else v

/-- The `ProgressUpdate` frame interface of `ProgressView`. `type` is the
discriminant string; the remaining fields may be absent from the JSON
payload, hence `Option`. -/
structure ProgressUpdate where
  type : String
  stage : Option String
  progress : Option Int
  message : Option String
deriving Repr, DecidableEq

/-- The static `STAGE_LABELS` record of `ProgressView`. -/
def STAGE_LABELS : List (String × String) :=
  [("initialization", "Initializing"),
   ("ideation", "Ideation"),
   ("comparative_insight", "Comparative Insight"),
   ("pitch_writing", "Pitch Writing"),
   ("prompt_forge", "Prompt Forge"),
   ("media_generation", "Media Generation"),
   ("qa_validation", "QA Validation"),
   ("publishing", "Publishing"),
   ("completed", "Completed!")]

/-- The display expression `STAGE_LABELS[key] || key`: the mapped label
when the key is present, the raw key otherwise (no label is the empty
string, but `strOr` keeps the JS falsiness faithfully). -/
def stageLabel (k : String) : String :=
  strOr (STAGE_LABELS.lookup k) k

/-- The log-line expression `STAGE_LABELS[data.stage] || data.stage` where
`data.stage` may be `undefined`: an absent field indexes the record at key
`"undefined"`... which is absent, and the template literal then renders
`undefined` as the string `"undefined"`. -/
def logStageText (st : Option String) : String :=
  match st with
  | none => "undefined"
  | some k => stageLabel k

/-- Local state of the `ProgressView` component: the four `useState`
hooks `progress`, `stage`, `message`, `logs`. -/
structure PVState where
  progress : Int
  stage : String
  message : String
  logs : List String
deriving Repr, DecidableEq

/-- Initial `useState` values of `ProgressView`. -/
def initPV : PVState :=
  { progress := 0
    stage := "initialization"
    message := "Starting pipeline..."
    logs := ["Pipeline started..."] }

/-- `addLog`: appends a timestamped line to the `logs` state. -/
def addLog (time msg : String) (s : PVState) : PVState :=
  { s with logs := s.logs ++ ["[" ++ time ++ "] " ++ msg] }

/-- The four values of the page-level `ViewType`. -/
inductive View where
  | input
  | progress
  | results
  | error
deriving Repr, DecidableEq

/-- Page-level state of `Home` in `page.tsx`: `currentView`, `taskId`,
`error`. -/
structure PageState where
  currentView : View
  taskId : Option String
  error : Option String
deriving Repr, DecidableEq

/-- Initial page state (`'input'`, `null`, `null`). -/
def initPage : PageState :=
  { currentView := View.input, taskId := none, error := none }

/-- `handleStartGeneration` in `page.tsx`. -/
def handleStartGeneration (id : String) (_s : PageState) : PageState :=
  { currentView := View.progress, taskId := some id, error := none }

/-- `handleDirectComplete` in `page.tsx`: sets the task id only when the
result carries a truthy `task_id`. -/
def handleDirectComplete (resultTaskId : Option String) (s : PageState) : PageState :=
  { currentView := View.results
    taskId :=
      match resultTaskId with
      | some t => if t = "" then s.taskId else some t
      | none => s.taskId
    error := none }

/-- `handleError` in `page.tsx`. -/
def handleError (msg : String) (s : PageState) : PageState :=
  { s with currentView := View.error, error := some msg }

/-- `handleComplete` in `page.tsx`. -/
def handleComplete (s : PageState) : PageState :=
  { s with currentView := View.results }

/-- `handleReset` in `page.tsx`. -/
def handleReset (_s : PageState) : PageState :=
  { currentView := View.input, taskId := none, error := none }

/-- A whole-session state: the page state, the mounted `ProgressView`'s
local state (`none` when the component is unmounted), whether the
WebSocket connection is open, the number of `setTimeout(onComplete, 1500)`
timers scheduled but not yet fired, and a counter of streams ever opened. -/
structure Session where
  page : PageState
  pv : Option PVState
  wsOpen : Bool
  pendingTimers : Nat
  streamsOpened : Nat
deriving Repr, DecidableEq

/-- The initial session: `Home` freshly rendered, nothing mounted. -/
def initSession : Session :=
  { page := initPage, pv := none, wsOpen := false
    pendingTimers := 0, streamsOpened := 0 }

/-- JS truthiness of the nullable `taskId` string: `null` and the empty
string are both falsy. -/
def taskIdTruthy : Option String → Bool
  | none => false
  | some t => !(t == "")

/-- React reconciliation: `ProgressView` is rendered exactly when
`currentView === 'progress' && taskId`, i.e. when the view is Progress and
the task id is truthy (non-null and non-empty). Mounting runs the effect
that opens one WebSocket; unmounting runs the cleanup `ws.close()`.
Scheduled `setTimeout` callbacks are NOT cancelled by unmounting. -/
def reconcile (s : Session) : Session :=
  if s.page.currentView = View.progress ∧ taskIdTruthy s.page.taskId = true then
    match s.pv with
    | some _ => s
    | none =>
      { s with pv := some initPV, wsOpen := true,
               streamsOpened := s.streamsOpened + 1 }
  else
    { s with pv := none, wsOpen := false }

/-- External events driving the session while mounted: the WebSocket
`onopen` callback, an `onmessage` frame (`none` when `JSON.parse` threw),
the `onerror` callback, a scheduled `onComplete` timer elapsing, and the
user-initiated reset. -/
inductive Event where
  | wsConnected (time : String)
  | frame (time : String) (f : Option ProgressUpdate)
  | wsError
  | timerFire
  | reset
deriving Repr, DecidableEq

/-- Events delivered by the stream connection itself (as opposed to timer
expiry or user actions). -/
def isStreamEvent : Event → Bool
  | Event.wsConnected _ => true
  | Event.frame _ _ => true
  | Event.wsError => true
  | _ => false

/-- The `onmessage` body of `ProgressView` applied to a successfully
parsed frame: returns the updated component state, whether a
`setTimeout(onComplete, 1500)` was scheduled, and the error message passed
to `onError` when the frame was an `error` frame. -/
def onMessage (time : String) (u : ProgressUpdate) (pv : PVState) :
    PVState × Bool × Option String :=
  if u.type = "progress" ∨ u.type = "status" then
    (addLog time
       (logStageText u.stage ++ ": " ++ toString (numOr u.progress 0) ++ "%")
       { pv with
           progress := numOr u.progress 0
           stage := strOr u.stage "unknown"
           message := strOr u.message "Processing..." },
     false, none)
  else if u.type = "final" then
    (addLog time "Pipeline complete!"
       { pv with
           progress := 100
           stage := "completed"
           message := "Your pitch deck has been successfully generated!" },
     true, none)
  else if u.type = "error" then
    (pv, false, some (strOr u.message "An error occurred"))
  else
    (pv, false, none)

/-- One step of the session machine. Frames and socket callbacks are only
delivered while the connection is open; page-state changes are followed by
reconciliation (mount/unmount of `ProgressView`). -/
def step (s : Session) (e : Event) : Session :=
  match e with
  | Event.reset => reconcile { s with page := handleReset s.page }
  | Event.timerFire =>
      if s.pendingTimers > 0 then
        reconcile { s with page := handleComplete s.page,
                           pendingTimers := s.pendingTimers - 1 }
      else s
  | Event.wsConnected time =>
      if s.wsOpen then
        match s.pv with
        | some pv => { s with pv := some (addLog time "Connected to stream" pv) }
        | none => s
      else s
  | Event.wsError =>
      if s.wsOpen then
        reconcile
          { s with page := handleError "Connection error. Please refresh and try again." s.page }
      else s
  | Event.frame time f =>
      if s.wsOpen then
        match s.pv with
        | none => s
        | some pv =>
          match f with
          | none => s
          | some u =>
            match onMessage time u pv with
            | (pv', sched, none) =>
                { s with pv := some pv',
                         pendingTimers := s.pendingTimers + (if sched then 1 else 0) }
            | (_, _, some msg) =>
                reconcile { s with page := handleError msg s.page }
      else s

/-- Run the session over a list of events, in arrival order. -/
def run (s : Session) (es : List Event) : Session :=
  es.foldl step s

/-- Number of direct Progress-to-Results view transitions along a trace. -/
def countPR : Session → List Event → Nat
  | _, [] => 0
  | s, e :: es =>
      let s' := step s e
      (if s.page.currentView = View.progress ∧ s'.page.currentView = View.results
       then 1 else 0) + countPR s' es

/-- Entering Progress from the shell: `onStartGeneration` fires and React
re-renders, mounting `ProgressView`. -/
def startProgress (id : String) (s : Session) : Session :=
  reconcile { s with page := handleStartGeneration id s.page }

/-- The accumulated live log visible in the session (empty when no
`ProgressView` is mounted). -/
def sessionLogs (s : Session) : List String :=
  match s.pv with
  | some pv => pv.logs
  | none => []

/-- JS `String.prototype.split` with a non-empty separator, on character
lists: leftmost, non-overlapping matches. `fuel` bounds the recursion and
is always supplied larger than the input length, so the first branch is
never reached on the intended calls; it keeps the definition structurally
recursive and hence kernel-computable. -/
def splitChars (sep : List Char) : Nat → List Char → List Char → List (List Char)
  | 0, xs, acc => [acc.reverse ++ xs]
  | _ + 1, [], acc => [acc.reverse]
  | fuel + 1, c :: rest, acc =>
      if sep.isPrefixOf (c :: rest) then
        acc.reverse :: splitChars sep fuel ((c :: rest).drop sep.length) []
      else
        splitChars sep fuel rest (c :: acc)

/-- JS `input.split(sep)` for a non-empty separator string. -/
def jsSplit (sep input : String) : List String :=
  (splitChars sep.toList (input.toList.length + 1) input.toList []).map List.asString

/-- JS `String.prototype.trim`: strips leading and trailing whitespace. -/
def jsTrim (s : String) : String :=
  (((s.toList.dropWhile Char.isWhitespace).reverse.dropWhile Char.isWhitespace).reverse).asString

/-- The idea/industry parsing in `IdeaForm.handleSubmit`:
`input.split(' in ')`, idea is the trimmed first element, industry the
trimmed second element when the delimiter occurs, `'Technology'`
otherwise. -/
def parseIdeaIndustry (input : String) : String × String :=
  let parts := jsSplit " in " input
  (jsTrim (parts.headD ""),
   if parts.length > 1 then jsTrim ((parts.get? 1).getD "") else "Technology")

/-- A backend HTTP response: either `ok` with the decoded JSON body, or a
non-ok response whose decoded body may contain a `detail` field. -/
inductive ApiResp (α : Type) where
  | ok (v : α)
  | fail (detail : Option String)
deriving Repr, DecidableEq

/-- Decoded body of `POST /api/generate_idea`. -/
structure GenerateData where
  task_id : String
deriving Repr, DecidableEq

/-- Decoded body of `GET /api/status/:taskId`. -/
structure StatusData where
  status : String
deriving Repr, DecidableEq

/-- Decoded body of `GET /api/results/:taskId`; the controller only
inspects `task_id` (in `handleDirectComplete`), the rest is opaque. -/
structure ResultsData where
  task_id : Option String
deriving Repr, DecidableEq

/-- The backend as an oracle for the three fetches `handleSubmit` can
issue. -/
structure Backend where
  generate : ApiResp GenerateData
  status : ApiResp StatusData
  results : ApiResp ResultsData
deriving Repr, DecidableEq

/-- Which callback `handleSubmit` ends in: the local-validation `onError`,
a post-network `onError`, `onStartGeneration`, or `onComplete`. -/
inductive SubmitOutcome where
  | validationError (msg : String)
  | submitError (msg : String)
  | startGeneration (taskId : String)
  | directComplete (r : ResultsData)
deriving Repr, DecidableEq

/-- Outcome of one `handleSubmit` call together with the number of network
requests it issued. -/
structure SubmitResult where
  outcome : SubmitOutcome
  networkCalls : Nat
deriving Repr, DecidableEq

/-- `handleSubmit` in `IdeaForm.tsx`: local validation, then the
generate / status / results fetch sequence, with each thrown error routed
to `onError` by the surrounding catch. -/
def handleSubmit (input : String) (b : Backend) : SubmitResult :=
  if jsTrim input = "" then
    { outcome := SubmitOutcome.validationError "Please enter a startup idea"
      networkCalls := 0 }
  else
    match b.generate with
    | ApiResp.fail detail =>
        { outcome := SubmitOutcome.submitError (strOr detail "Failed to start pipeline")
          networkCalls := 1 }
    | ApiResp.ok g =>
        match b.status with
        | ApiResp.fail _ =>
            { outcome := SubmitOutcome.submitError "Failed to check task status"
              networkCalls := 2 }
        | ApiResp.ok st =>
            if st.status = "completed" then
              match b.results with
              | ApiResp.ok r =>
                  { outcome := SubmitOutcome.directComplete r, networkCalls := 3 }
              | ApiResp.fail _ =>
                  { outcome := SubmitOutcome.submitError "Failed to fetch results"
                    networkCalls := 3 }
            else
              { outcome := SubmitOutcome.startGeneration g.task_id, networkCalls := 2 }

/-- Effect of the outcome's callback on the session, followed by React
reconciliation (validation errors and submit errors both go through
`onError`, per `IdeaForm`'s props wiring in `page.tsx`). -/
def applyOutcome (o : SubmitOutcome) (s : Session) : Session :=
  match o with
  | SubmitOutcome.validationError m => reconcile { s with page := handleError m s.page }
  | SubmitOutcome.submitError m => reconcile { s with page := handleError m s.page }
  | SubmitOutcome.startGeneration t => reconcile { s with page := handleStartGeneration t s.page }
  | SubmitOutcome.directComplete r => reconcile { s with page := handleDirectComplete r.task_id s.page }

/-- A full submit interaction from the Input view. -/
def applySubmit (input : String) (b : Backend) (s : Session) : Session :=
  applyOutcome (handleSubmit input b).outcome s

/-- Modelled from the spec claim's words (for comparison with
`parseIdeaIndustry`): the idea is the trimmed part before the FIRST
delimiter occurrence and the industry is the trimmed part AFTER it, i.e.
the whole remainder of the input, with the same `Technology` fallback. -/
def claimedParse (input : String) : String × String :=
  let parts := jsSplit " in " input
  (jsTrim (parts.headD ""),
   if parts.length > 1 then jsTrim (String.intercalate " in " parts.tail)
   else "Technology")

/-- The log line appended by a `progress`/`status` frame. -/
def progressLogLine (t : String) (u : ProgressUpdate) : String :=
  "[" ++ t ++ "] " ++
    (logStageText u.stage ++ ": " ++ toString (numOr u.progress 0) ++ "%")

/-- The component state produced by one `progress`/`status` frame. -/
def pvAfter (t : String) (u : ProgressUpdate) (pv : PVState) : PVState :=
  PVState.mk (numOr u.progress 0) (strOr u.stage "unknown")
    (strOr u.message "Processing...") (pv.logs ++ [progressLogLine t u])

/-- A `final` frame with no optional fields, as the backend sends it. -/
def finalFrameU : ProgressUpdate :=
  { type := "final", stage := none, progress := none, message := none }

/-- An `error` frame carrying a message. -/
def errorFrameU : ProgressUpdate :=
  { type := "error", stage := none, progress := none, message := some "pipeline failed" }

/-- A `progress` frame in the `ideation` stage at the given percentage. -/
def progFrameU (p : Int) : ProgressUpdate :=
  { type := "progress", stage := some "ideation", progress := some p
    message := some "Expanding idea..." }

/-- A session sitting in the Results view with a live task id. -/
def resultsSession : Session :=
  { page := { currentView := View.results, taskId := some "t1", error := none }
    pv := none, wsOpen := false, pendingTimers := 0, streamsOpened := 1 }

/-- A backend whose generate call fails with no decodable body. -/
def failingBackend : Backend :=
  { generate := ApiResp.fail none
    status := ApiResp.ok { status := "completed" }
    results := ApiResp.ok { task_id := some "t1" } }

/-- A backend that accepts the job and reports it still running. -/
def runningBackend : Backend :=
  { generate := ApiResp.ok { task_id := "t9" }
    status := ApiResp.ok { status := "running" }
    results := ApiResp.fail none }

theorem run_nil (s : Session) : run s [] = s := rfl

theorem run_cons (s : Session) (e : Event) (es : List Event) :
    run s (e :: es) = run (step s e) es := rfl

/-- With the connection closed, events delivered by the stream are no-ops:
the socket callbacks are guarded by the open connection. -/
theorem step_stream_closed (s : Session) (e : Event)
    (hws : s.wsOpen = false) (he : isStreamEvent e = true) : step s e = s := by
  cases e <;> simp [step, isStreamEvent, hws] at he ⊢

/-- With the connection closed, a whole sequence of stream-delivered
events is a no-op. -/
theorem run_stream_closed (s : Session) (hws : s.wsOpen = false) :
    ∀ es : List Event, (∀ e ∈ es, isStreamEvent e = true) → run s es = s := by
  intro es
  induction es with
  | nil => intro _; rfl
  | cons e es ih =>
      intro h
      rw [run_cons, step_stream_closed s e hws (h e (by simp))]
      exact ih (fun e' he' => h e' (by simp [he']))

/-- C6: a stream frame whose payload fails to parse leaves the whole
session state — view, displayed progress, stage, message and log —
unchanged: the `catch` around `JSON.parse` only logs to the console, so a
malformed frame causes no state transition, no escalation to Error, and no
crash (the step function is total). -/
theorem malformed_frame_no_change (s : Session) (t : String) :
    step s (Event.frame t none) = s := by
  cases hws : s.wsOpen <;> cases hpv : s.pv <;> simp [step, hws, hpv]

/-- C3: invoking reset from the Progress, Results or Error view always
yields the Input view with no task id, no error message and an empty live
log, and unmounts the progress view, closing any open stream connection. -/
theorem reset_yields_input (s : Session)
    (h : s.page.currentView = View.progress ∨ s.page.currentView = View.results ∨
         s.page.currentView = View.error) :
    (step s Event.reset).page.currentView = View.input ∧
    (step s Event.reset).page.taskId = none ∧
    (step s Event.reset).page.error = none ∧
    sessionLogs (step s Event.reset) = [] ∧
    (step s Event.reset).pv = none ∧
    (step s Event.reset).wsOpen = false := by
  simp [step, handleReset, reconcile, sessionLogs]

theorem reset_yields_input_witness :
    (step resultsSession Event.reset).page.currentView = View.input ∧
    (step resultsSession Event.reset).page.taskId = none ∧
    (step resultsSession Event.reset).page.error = none ∧
    sessionLogs (step resultsSession Event.reset) = [] ∧
    (step resultsSession Event.reset).pv = none ∧
    (step resultsSession Event.reset).wsOpen = false :=
  reset_yields_input resultsSession (Or.inr (Or.inl (by decide)))

/-- C7: a submission whose text is empty or whitespace-only issues no
network call and surfaces the fixed validation message through the error
path (the Error view's message slot). -/
theorem empty_submit_no_network (input : String) (b : Backend)
    (h : jsTrim input = "") :
    handleSubmit input b =
      { outcome := SubmitOutcome.validationError "Please enter a startup idea"
        networkCalls := 0 } ∧
    (applySubmit input b initSession).page.currentView = View.error ∧
    (applySubmit input b initSession).page.error = some "Please enter a startup idea" ∧
    (applySubmit input b initSession).streamsOpened = 0 := by
  refine ⟨by simp [handleSubmit, h], ?_⟩
  simp [applySubmit, handleSubmit, h, applyOutcome, handleError, reconcile, initSession, initPage]

theorem empty_submit_no_network_witness :
    handleSubmit "   " failingBackend =
      { outcome := SubmitOutcome.validationError "Please enter a startup idea"
        networkCalls := 0 } ∧
    (applySubmit "   " failingBackend initSession).page.currentView = View.error ∧
    (applySubmit "   " failingBackend initSession).page.error =
      some "Please enter a startup idea" ∧
    (applySubmit "   " failingBackend initSession).streamsOpened = 0 :=
  empty_submit_no_network "   " failingBackend (by decide)

/-- C8: the stage-label lookup is total: every key present in the static
`STAGE_LABELS` mapping displays its mapped human label, and any key absent
from the mapping displays the raw key string itself; being a total
function, it never fails. -/
theorem stage_label_total :
    (∀ kl ∈ STAGE_LABELS, stageLabel kl.1 = kl.2) ∧
    (∀ k : String, k ∉ STAGE_LABELS.map Prod.fst → stageLabel k = k) := by
  constructor
  · decide
  · intro k hk
    simp [STAGE_LABELS] at hk
    obtain ⟨h1, h2, h3, h4, h5, h6, h7, h8, h9⟩ := hk
    simp [stageLabel, STAGE_LABELS, List.lookup, strOr,
          beq_eq_false_iff_ne.mpr h1, beq_eq_false_iff_ne.mpr h2,
          beq_eq_false_iff_ne.mpr h3, beq_eq_false_iff_ne.mpr h4,
          beq_eq_false_iff_ne.mpr h5, beq_eq_false_iff_ne.mpr h6,
          beq_eq_false_iff_ne.mpr h7, beq_eq_false_iff_ne.mpr h8,
          beq_eq_false_iff_ne.mpr h9]

theorem stage_label_total_witness :
    ("story_boarding" : String) ∉ STAGE_LABELS.map Prod.fst ∧
    stageLabel "story_boarding" = "story_boarding" :=
  ⟨by decide, stage_label_total.2 "story_boarding" (by decide)⟩

/-- C9 counterexample: for the input `A in B in C` the code takes the
industry from the second element of the delimiter split — the text between
the first and second delimiter occurrences — so it yields `B`, while the
claim's reading (trimmed part after the first delimiter) yields `B in C`. -/
theorem parse_second_field_cex :
    parseIdeaIndustry "A in B in C" = ("A", "B") ∧
    claimedParse "A in B in C" = ("A", "B in C") ∧
    parseIdeaIndustry "A in B in C" ≠ claimedParse "A in B in C" := by
  decide

/-- C9 amended: the submitted text is split on the delimiter token
`" in "`; the idea is the trimmed first element and the industry is the
trimmed second element (the part between the first and second delimiter
occurrences), defaulting to `Technology` when the delimiter is absent; in
particular `AI scheduling tool in healthcare` yields idea
`AI scheduling tool` and industry `healthcare`. -/
theorem parse_idea_industry (input : String) :
    (jsSplit " in " input = [input] →
       parseIdeaIndustry input = (jsTrim input, "Technology")) ∧
    (∀ a b rest, jsSplit " in " input = a :: b :: rest →
       parseIdeaIndustry input = (jsTrim a, jsTrim b)) ∧
    parseIdeaIndustry "AI scheduling tool in healthcare" =
      ("AI scheduling tool", "healthcare") := by
  refine ⟨?_, ?_, by decide⟩
  · intro h
    simp [parseIdeaIndustry, h]
  · intro a b rest h
    simp [parseIdeaIndustry, h]

theorem parse_idea_industry_witness :
    jsSplit " in " "A in B in C" = "A" :: "B" :: ["C"] ∧
    parseIdeaIndustry "A in B in C" = (jsTrim "A", jsTrim "B") :=
  ⟨by decide, (parse_idea_industry "A in B in C").2.1 "A" "B" ["C"] (by decide)⟩

/-- C4 counterexample: a non-empty submission whose generate call fails
ends in the Error view — neither of the claim's two outcomes (Progress
with one open stream, or Results) occurs, so the submit operation does not
always end in one of those two outcomes. -/
theorem submit_failure_cex :
    jsTrim "hello" ≠ "" ∧
    (applySubmit "hello" failingBackend initSession).page.currentView = View.error ∧
    (applySubmit "hello" failingBackend initSession).page.error =
      some "Failed to start pipeline" ∧
    (applySubmit "hello" failingBackend initSession).streamsOpened = 0 := by
  decide

/-- C4 amended: for a non-empty submission whose generate and status
fetches succeed and whose returned task identifier is non-empty: if the
backend reports the job as not yet completed, the controller transitions
to Progress carrying the returned task identifier and opens exactly one
stream; if it reports the job as completed and the results fetch
succeeds, the controller transitions directly to Results without ever
entering Progress (no stream is opened); a failing backend call instead
surfaces through the Error path. -/
theorem submit_outcomes (input : String) (b : Backend) (g : GenerateData)
    (st : StatusData) (hne : jsTrim input ≠ "") (ht : g.task_id ≠ "")
    (hg : b.generate = ApiResp.ok g) (hs : b.status = ApiResp.ok st) :
    (st.status ≠ "completed" →
       (applySubmit input b initSession).page.currentView = View.progress ∧
       (applySubmit input b initSession).page.taskId = some g.task_id ∧
       (applySubmit input b initSession).streamsOpened = 1 ∧
       (applySubmit input b initSession).pv = some initPV ∧
       (applySubmit input b initSession).wsOpen = true) ∧
    (∀ r : ResultsData, st.status = "completed" → b.results = ApiResp.ok r →
       (applySubmit input b initSession).page.currentView = View.results ∧
       (applySubmit input b initSession).streamsOpened = 0 ∧
       (applySubmit input b initSession).pv = none) := by
  constructor
  · intro hst
    simp [applySubmit, handleSubmit, hne, hg, hs, hst, applyOutcome,
          handleStartGeneration, reconcile, taskIdTruthy, ht,
          initSession, initPage]
  · intro r hst hr
    simp [applySubmit, handleSubmit, hne, hg, hs, hst, hr, applyOutcome,
          handleDirectComplete, reconcile, taskIdTruthy, initSession, initPage]

theorem submit_outcomes_witness :
    (applySubmit "AI tool" runningBackend initSession).page.currentView = View.progress ∧
    (applySubmit "AI tool" runningBackend initSession).page.taskId = some "t9" ∧
    (applySubmit "AI tool" runningBackend initSession).streamsOpened = 1 ∧
    (applySubmit "AI tool" runningBackend initSession).pv = some initPV ∧
    (applySubmit "AI tool" runningBackend initSession).wsOpen = true :=
  (submit_outcomes "AI tool" runningBackend { task_id := "t9" } { status := "running" }
      (by decide) (by decide) rfl rfl).1 (by decide)

/-- C2: an `error`-kind stream event transitions the controller to the
Error view carrying the event's message, closes the connection (the
progress view unmounts and its cleanup closes the socket), and no
stream-delivered event afterwards changes the session state. -/
theorem error_event_halts (s : Session) (pv1 : PVState) (t m : String)
    (u : ProgressUpdate) (hv : s.page.currentView = View.progress)
    (hpv : s.pv = some pv1) (hws : s.wsOpen = true) (hty : u.type = "error")
    (hm : u.message = some m) (hm' : m ≠ "") :
    (step s (Event.frame t (some u))).page.currentView = View.error ∧
    (step s (Event.frame t (some u))).page.error = some m ∧
    (step s (Event.frame t (some u))).wsOpen = false ∧
    (∀ es : List Event, (∀ e ∈ es, isStreamEvent e = true) →
       run (step s (Event.frame t (some u))) es = step s (Event.frame t (some u))) := by
  have h1 : (step s (Event.frame t (some u))).page.currentView = View.error := by
    simp [step, hws, hpv, onMessage, hty, strOr, hm, hm', handleError, reconcile]
  have h2 : (step s (Event.frame t (some u))).page.error = some m := by
    simp [step, hws, hpv, onMessage, hty, strOr, hm, hm', handleError, reconcile]
  have h3 : (step s (Event.frame t (some u))).wsOpen = false := by
    simp [step, hws, hpv, onMessage, hty, strOr, hm, hm', handleError, reconcile]
  exact ⟨h1, h2, h3, fun es hes => run_stream_closed _ h3 es hes⟩

theorem error_event_halts_witness :
    (step (startProgress "t1" initSession)
        (Event.frame "b" (some errorFrameU))).page.currentView = View.error ∧
    (step (startProgress "t1" initSession)
        (Event.frame "b" (some errorFrameU))).page.error = some "pipeline failed" ∧
    (step (startProgress "t1" initSession)
        (Event.frame "b" (some errorFrameU))).wsOpen = false ∧
    run (step (startProgress "t1" initSession) (Event.frame "b" (some errorFrameU)))
        [Event.frame "c" (some (progFrameU 50)), Event.wsConnected "d"] =
      step (startProgress "t1" initSession) (Event.frame "b" (some errorFrameU)) :=
  let h := error_event_halts (startProgress "t1" initSession) initPV "b"
    "pipeline failed" errorFrameU (by decide) (by decide) (by decide) rfl rfl (by decide)
  ⟨h.1, h.2.1, h.2.2.1,
   h.2.2.2 [Event.frame "c" (some (progFrameU 50)), Event.wsConnected "d"] (by decide)⟩

theorem numOr_some_zero (p : Int) : numOr (some p) 0 = p := by
  simp only [numOr]
  split_ifs with h
  · omega
  · rfl

/-- Effect of one `progress`/`status` frame on a mounted session: the
three displayed fields are replaced by the frame's values (with the JS
falsy fallbacks) and one log line is appended. -/
theorem step_progress_frame (s : Session) (pv1 : PVState) (t : String)
    (u : ProgressUpdate) (hpv : s.pv = some pv1) (hws : s.wsOpen = true)
    (hty : u.type = "progress" ∨ u.type = "status") :
    step s (Event.frame t (some u)) = { s with pv := some (pvAfter t u pv1) } := by
  rcases hty with h | h <;>
    simp [step, hws, hpv, onMessage, h, addLog, progressLogLine, pvAfter]

/-- C5: after a sequence of `progress`-kind frames, the displayed
percentage equals the progress value of the latest frame and the log has
gained exactly one entry per frame, in arrival order. -/
theorem progress_sequence (s : Session) (pv1 : PVState)
    (us : List (String × ProgressUpdate)) (t : String) (u : ProgressUpdate)
    (p : Int) (hpv : s.pv = some pv1) (hws : s.wsOpen = true)
    (hall : ∀ x ∈ us ++ [(t, u)], x.2.type = "progress")
    (hp : u.progress = some p) :
    ∃ pv' : PVState,
      (run s ((us ++ [(t, u)]).map fun x => Event.frame x.1 (some x.2))).pv = some pv' ∧
      pv'.progress = p ∧
      pv'.logs = pv1.logs ++ (us ++ [(t, u)]).map (fun x => progressLogLine x.1 x.2) := by
  induction us generalizing s pv1 with
  | nil =>
      have hu : u.type = "progress" ∨ u.type = "status" :=
        Or.inl (hall (t, u) (by simp))
      rw [List.nil_append, List.map_cons, List.map_nil, run_cons, run_nil,
          step_progress_frame s pv1 t u hpv hws hu]
      exact ⟨pvAfter t u pv1, rfl, by simp [pvAfter, hp, numOr_some_zero], by simp [pvAfter]⟩
  | cons hd tl ih =>
      have hhd : hd.2.type = "progress" ∨ hd.2.type = "status" :=
        Or.inl (hall hd (by simp))
      rw [List.cons_append, List.map_cons, run_cons,
          step_progress_frame s pv1 hd.1 hd.2 hpv hws hhd]
      obtain ⟨pv', h1, h2, h3⟩ :=
        ih { s with pv := some (pvAfter hd.1 hd.2 pv1) } (pvAfter hd.1 hd.2 pv1)
          rfl hws (fun x hx => hall x (by simp at hx ⊢; tauto))
      refine ⟨pv', h1, h2, ?_⟩
      simp [pvAfter, h3]

theorem progress_sequence_witness :
    ∃ pv' : PVState,
      (run (startProgress "t1" initSession)
        (([(("a" : String), progFrameU 0), ("b", progFrameU 45)] ++
            [("c", progFrameU 90)]).map fun x => Event.frame x.1 (some x.2))).pv =
        some pv' ∧
      pv'.progress = 90 ∧
      pv'.logs = initPV.logs ++
        ([(("a" : String), progFrameU 0), ("b", progFrameU 45)] ++
          [("c", progFrameU 90)]).map (fun x => progressLogLine x.1 x.2) :=
  progress_sequence (startProgress "t1" initSession) initPV
    [("a", progFrameU 0), ("b", progFrameU 45)] "c" (progFrameU 90) 90
    (by decide) (by decide) (by decide) rfl

/-- Lemma: `onMessage` never removes or edits log entries, it can only
append. -/
theorem onMessage_log_extends (t : String) (u : ProgressUpdate) (pv : PVState) :
    ∃ tail, (onMessage t u pv).1.logs = pv.logs ++ tail := by
  unfold onMessage
  split_ifs <;> first | exact ⟨_, rfl⟩ | exact ⟨[], by simp⟩

/-- C10: the progress log starts as the single `Pipeline started...` entry
and is append-only: whatever event the session processes, if the progress
view stays mounted its log after the event is its log before the event
plus zero or more appended entries — nothing is removed or modified. -/
theorem log_append_only :
    initPV.logs = ["Pipeline started..."] ∧
    ∀ (s : Session) (e : Event) (pv pv' : PVState),
      s.pv = some pv → (step s e).pv = some pv' →
      ∃ tail, pv'.logs = pv.logs ++ tail := by
  refine ⟨rfl, ?_⟩
  intro s e pv pv' hpv hpv'
  cases e with
  | reset =>
      simp [step, handleReset, reconcile] at hpv'
  | timerFire =>
      by_cases hpt : s.pendingTimers > 0
      · simp [step, hpt, handleComplete, reconcile] at hpv'
      · simp only [step, if_neg hpt] at hpv'
        rw [hpv] at hpv'
        cases hpv'
        exact ⟨[], by simp⟩
  | wsConnected time =>
      by_cases hws : s.wsOpen
      · simp only [step, if_pos hws, hpv] at hpv'
        cases hpv'
        exact ⟨_, rfl⟩
      · simp only [step, if_neg hws] at hpv'
        rw [hpv] at hpv'
        cases hpv'
        exact ⟨[], by simp⟩
  | wsError =>
      by_cases hws : s.wsOpen
      · simp [step, hws, handleError, reconcile] at hpv'
      · simp only [step, if_neg hws] at hpv'
        rw [hpv] at hpv'
        cases hpv'
        exact ⟨[], by simp⟩
  | frame time f =>
      by_cases hws : s.wsOpen
      · cases f with
        | none =>
            simp only [step, if_pos hws, hpv] at hpv'
            cases hpv'
            exact ⟨[], by simp⟩
        | some u =>
            obtain ⟨tail, ht⟩ := onMessage_log_extends time u pv
            rcases hmsg : onMessage time u pv with ⟨pv2, sched, merr⟩
            rw [hmsg] at ht
            cases merr with
            | none =>
                simp only [step, if_pos hws, hpv, hmsg] at hpv'
                cases hpv'
                exact ⟨tail, ht⟩
            | some msg =>
                simp [step, hws, hpv, hmsg, handleError, reconcile] at hpv'
      · simp only [step, if_neg hws] at hpv'
        rw [hpv] at hpv'
        cases hpv'
        exact ⟨[], by simp⟩

theorem log_append_only_witness :
    initPV.logs = ["Pipeline started..."] ∧
    ∃ tail, (addLog "09:00:00" "Connected to stream" initPV).logs = initPV.logs ++ tail :=
  ⟨log_append_only.1,
   log_append_only.2 (startProgress "t1" initSession) (Event.wsConnected "09:00:00")
     initPV (addLog "09:00:00" "Connected to stream" initPV) (by decide) (by decide)⟩

/-- C1 counterexample: events arriving after a `final` event are still
processed during the fixed delay, and the scheduled transition is not
cancelled. With the sequence final-frame, error-frame, timer-expiry, the
view moves Progress to Error and then the stale timer fires, landing in
Results from Error: no Progress-to-Results transition ever occurs, so the
claimed transition does not happen regardless of events after `final`. -/
theorem final_then_error_cex :
    countPR (startProgress "t1" initSession)
      [Event.frame "a" (some finalFrameU), Event.frame "b" (some errorFrameU),
       Event.timerFire] = 0 ∧
    (run (startProgress "t1" initSession)
      [Event.frame "a" (some finalFrameU), Event.frame "b" (some errorFrameU),
       Event.timerFire]).page.currentView = View.results ∧
    (run (startProgress "t1" initSession)
      [Event.frame "a" (some finalFrameU), Event.frame "b" (some errorFrameU)]).page.currentView
      = View.error := by
  decide

/-- C1 amended: a `final` event, at the moment it is processed, sets the
displayed progress to 100, the stage to `completed`, and appends the
completion log line, regardless of the progress and stage values of prior
events; it schedules one delayed transition, and provided no further
stream event arrives before the delay elapses, the view transitions from
Progress to Results exactly once when it fires (a second expiry changes
nothing). Events arriving after the `final` event are, however, still
processed during the delay window (see the counterexample). -/
theorem final_event (s : Session) (pv1 : PVState) (t : String)
    (u : ProgressUpdate) (hv : s.page.currentView = View.progress)
    (hpv : s.pv = some pv1) (hws : s.wsOpen = true)
    (hpt : s.pendingTimers = 0) (hty : u.type = "final") :
    (step s (Event.frame t (some u))).pv = some
      (addLog t "Pipeline complete!"
        (PVState.mk 100 "completed"
          "Your pitch deck has been successfully generated!" pv1.logs)) ∧
    (step s (Event.frame t (some u))).page = s.page ∧
    (step s (Event.frame t (some u))).pendingTimers = 1 ∧
    (step (step s (Event.frame t (some u))) Event.timerFire).page.currentView
      = View.results ∧
    countPR (step s (Event.frame t (some u))) [Event.timerFire, Event.timerFire] = 1 := by
  have hs1 : step s (Event.frame t (some u)) =
      { s with
          pv := some (addLog t "Pipeline complete!"
            (PVState.mk 100 "completed"
              "Your pitch deck has been successfully generated!" pv1.logs)),
          pendingTimers := s.pendingTimers + 1 } := by
    simp [step, hws, hpv, onMessage, hty, addLog]
  rw [hs1]
  refine ⟨rfl, rfl, by simp [hpt], ?_, ?_⟩
  · simp [step, hpt, handleComplete, reconcile]
  · simp [countPR, step, hpt, handleComplete, reconcile, hv]

theorem final_event_witness :
    (step (startProgress "t1" initSession) (Event.frame "a" (some finalFrameU))).pv = some
      (addLog "a" "Pipeline complete!"
        (PVState.mk 100 "completed"
          "Your pitch deck has been successfully generated!" initPV.logs)) ∧
    (step (startProgress "t1" initSession) (Event.frame "a" (some finalFrameU))).page =
      (startProgress "t1" initSession).page ∧
    (step (startProgress "t1" initSession)
        (Event.frame "a" (some finalFrameU))).pendingTimers = 1 ∧
    (step (step (startProgress "t1" initSession) (Event.frame "a" (some finalFrameU)))
        Event.timerFire).page.currentView = View.results ∧
    countPR (step (startProgress "t1" initSession) (Event.frame "a" (some finalFrameU)))
      [Event.timerFire, Event.timerFire] = 1 :=
  final_event (startProgress "t1" initSession) initPV "a" finalFrameU
    (by decide) (by decide) (by decide) (by decide) rfl

end GTMForge
